import Mathlib

/-!
Shallow embedding of `build_picons.py` (picon generation pipeline with a
JSON cache, mode-based rebuild decisions, top-level-directory filters,
glob path-pattern filters, SVG rasterization and frame fitting), together
with theorems settling the specification claims about it.
-/

namespace BuildPicons

/-- Configuration fingerprint `cfg_fingerprint` built in `main` from the
command-line arguments (frame width/height, output-name part `pfx`
standing for the source's output-file name part, upscale flag, SVG engine
and a version number). Stored in the cache under `_config` and inside each
per-file entry under `cfg`. -/
structure CfgFingerprint where
  frame_w : Nat
  frame_h : Nat
  pfx : String
  allow_upscale : Bool
  svg_engine : String
  version : Nat
deriving DecidableEq, Repr

/-- Rebuild mode selected by `--mode` (choices `all`, `changed`, `missing`). -/
inductive Mode
  | all
  | changed
  | missing
deriving DecidableEq, Repr

/-- Per-file cache entry, a JSON object read back with `.get`, so each field
is optional (absent key reads as Python `None`). -/
structure CacheEntry where
  src_sha1 : Option String
  cfg : Option CfgFingerprint
deriving DecidableEq, Repr

/-- Cache document: the `_config` key (absent on a fresh cache) and the
`files` mapping, modelled as an association list where an updated key is
consed in front (lookup finds the most recent binding, matching a Python
dict assignment). -/
structure Cache where
  config : Option CfgFingerprint
  files : List (String × CacheEntry)
deriving DecidableEq, Repr

/-- Cache document parsed from an empty or absent file: no `_config`, no
`files`. -/
def emptyCache : Cache := ⟨none, []⟩

/-- State of the cache file on disk when `load_cache` runs: absent,
present but raising on read or JSON parse, or successfully parsed. -/
inductive CacheFileState
  | missing
  | unreadable
  | parsed (doc : Cache)

/-- Embedding of `load_cache` (lines 27-33): a missing file and any read or
parse exception both yield the empty document; a total function, so no
error ever propagates to the caller. -/
def load_cache : CacheFileState → Cache
  | CacheFileState.missing => emptyCache
  | CacheFileState.unreadable => emptyCache
  | CacheFileState.parsed d => d

/-- Lookup in the `files` association list, first binding wins
(`files_cache.get(key)`). -/
def findEntry : List (String × CacheEntry) → String → Option CacheEntry
  | [], _ => none
  | (k, v) :: rest, key => if k = key then some v else findEntry rest key

/-- Embedding of the global mode override in `main` (lines 225-228): if the
persisted `_config` differs from the active fingerprint and the selected
mode is not `all`, the mode is forced to `changed` before the per-file
loop. -/
def effectiveMode (cacheCfg : Option CfgFingerprint) (active : CfgFingerprint)
    (m : Mode) : Mode :=
  if cacheCfg ≠ some active ∧ m ≠ Mode.all then Mode.changed else m

/-- Reason string attached to a BUILD decision in the per-file loop. -/
inductive Reason
  | all
  | new
  | configChanged
  | missingOut
  | contentChanged
deriving DecidableEq, Repr

/-- Outcome of the per-file decision: BUILD with its reason, or SKIP. -/
inductive Decision
  | build (r : Reason)
  | skip
deriving DecidableEq, Repr

/-- Predicate selecting BUILD decisions. -/
def isBuild : Decision → Bool
  | Decision.build _ => true
  | Decision.skip => false

/-- Predicate selecting SKIP decisions. -/
def isSkip : Decision → Bool
  | Decision.build _ => false
  | Decision.skip => true

/-- Embedding of the per-file build decision in `main` (lines 266-291):
mode `all` always builds; otherwise a missing entry builds as `new`, a
config mismatch builds as `config-changed`, mode `missing` with an absent
output builds as `missing-out`, mode `changed` with a hash mismatch builds
as `content-changed`, and finally an absent output under a mode other than
`changed` builds as `missing-out`; everything else is SKIP. -/
def decideOne (m : Mode) (active : CfgFingerprint) (entry : Option CacheEntry)
    (srcHash : String) (outExists : Bool) : Decision :=
  if m = Mode.all then Decision.build Reason.all
  else
    match entry with
    | none => Decision.build Reason.new
    | some e =>
      if e.cfg ≠ some active then Decision.build Reason.configChanged
      else if m = Mode.missing ∧ outExists = false then Decision.build Reason.missingOut
      else if m = Mode.changed ∧ e.src_sha1 ≠ some srcHash then Decision.build Reason.contentChanged
      else if outExists = false ∧ m ≠ Mode.changed then Decision.build Reason.missingOut
      else Decision.skip

/-- Candidate file reaching the per-file loop: cache key (the relative path
with forward slashes), the SHA-1 of its bytes, and whether its output
already exists. -/
structure Candidate where
  key : String
  srcHash : String
  outExists : Bool
deriving DecidableEq, Repr

/-- Embedding of the per-file loop of `main` (lines 263-301) in the
non-dry-run case where every attempted build succeeds (`process_one`
returns True): each candidate is decided, a built candidate stores a fresh
entry (its current hash and the active fingerprint) and its output now
exists. Returns the decisions, the final `files` map and the updated
candidates. -/
def runFold (m : Mode) (active : CfgFingerprint) :
    List Candidate → List (String × CacheEntry) →
    List Decision × List (String × CacheEntry) × List Candidate
  | [], fc => ([], fc, [])
  | c :: cs, fc =>
    let d := decideOne m active (findEntry fc c.key) c.srcHash c.outExists
    let fc2 := if isBuild d then (c.key, CacheEntry.mk (some c.srcHash) (some active)) :: fc
               else fc
    let c2 := if isBuild d then Candidate.mk c.key c.srcHash true else c
    let rest := runFold m active cs fc2
    (d :: rest.1, rest.2.1, c2 :: rest.2.2)

/-- Embedding of a whole non-dry-run invocation over an already-enumerated
candidate list, with every attempted build succeeding: the mode override is
applied once against the loaded cache's `_config`, the per-file loop runs
under the resulting mode, and the saved cache records the active
fingerprint under `_config` together with the updated `files` map
(lines 225-228, 263-301, 303-307). -/
def runAll (m : Mode) (active : CfgFingerprint) (cache : Cache)
    (cands : List Candidate) : List Decision × Cache × List Candidate :=
  let em := effectiveMode cache.config active m
  let r := runFold em active cands cache.files
  (r.1, Cache.mk (some active) r.2.1, r.2.2)

/-- Embedding of `top_level_dir_of` (lines 149-152): `None` when the
relative path has no segments, otherwise its first segment — for a file
directly at the root this is the file's own name. A path is modelled as
its list of segments (`rel.parts`). -/
def top_level_dir_of : List String → Option String
  | [] => none
  | p :: _ => some p

/-- Extension allow-list `IMAGE_EXTS` (line 12). -/
def IMAGE_EXTS : List String :=
  [".png", ".jpg", ".jpeg", ".webp", ".bmp", ".tiff", ".tif", ".svg"]

/-- Index of the last occurrence of a dot in a character list (Python
`name.rfind` for the dot character), `none` when absent. -/
def rfindDot : List Char → Option Nat
  | [] => none
  | c :: cs =>
    match rfindDot cs with
    | some i => some (i + 1)
    | none => if c = '.' then some 0 else none

/-- Model of `pathlib` `PurePath.suffix` on a file name: the substring from
the last dot onward, when that dot is neither the first nor the last
character; empty otherwise. This is what `path.suffix` computes for the
enumerated files. -/
def pySuffix (name : String) : String :=
  match rfindDot name.toList with
  | none => ""
  | some i =>
    if 0 < i ∧ i + 1 < name.toList.length then String.mk (name.toList.drop i) else ""

/-- ASCII lower-casing of one character, modelling Python `str.lower` on the
ASCII range (the only range exercised by extension strings). -/
def lowerChar (c : Char) : Char :=
  if 'A' ≤ c ∧ c ≤ 'Z' then Char.ofNat (c.toNat + 32) else c

/-- ASCII lower-casing of a string (Python `str.lower` restricted to ASCII). -/
def lowerString (s : String) : String := String.mk (s.toList.map lowerChar)

/-- Fuel-indexed shell-style wildcard match, modelling CPython `fnmatch` on
one path component for patterns made of literal characters and the two
wildcards star (any run, possibly empty) and question mark (any single
character); character classes are not used by the repository. The fuel
only bounds recursion depth: every call below strictly shrinks the summed
length of pattern and subject, so the fuel supplied by `fnmatch` never runs
out. -/
def fnmatchFuel : Nat → List Char → List Char → Bool
  | 0, _, _ => false
  | Nat.succ _, [], [] => true
  | Nat.succ _, [], _ :: _ => false
  | Nat.succ n, c :: ps, s =>
    if c = '*' then
      fnmatchFuel n ps s ||
        (match s with
         | [] => false
         | _ :: s2 => fnmatchFuel n (c :: ps) s2)
    else
      match s with
      | [] => false
      | a :: s2 => (c = '?' || c = a) && fnmatchFuel n ps s2

/-- Wildcard match of one pattern component against one path component. -/
def fnmatch (pat subject : String) : Bool :=
  fnmatchFuel (pat.toList.length + subject.toList.length + 1) pat.toList subject.toList

/-- Model of `PurePath.match` with a relative glob pattern: the pattern,
given by its slash-separated components, must match the trailing components
of the path one-to-one, case-sensitively (POSIX flavour). Used by
`matches_any_pattern` (lines 160-165). -/
def pathMatch (parts pat : List String) : Bool :=
  decide (pat.length ≤ parts.length) &&
    ((parts.drop (parts.length - pat.length)).zip pat).all
      (fun q => fnmatch q.2 q.1)

/-- Embedding of `matches_any_pattern` (lines 160-165): true when the
relative path (given by segments) matches at least one of the configured
glob patterns (each given pre-split on slashes, as `PurePath.match` splits
its argument). -/
def matches_any_pattern (rel : List String) (patterns : List (List String)) : Bool :=
  patterns.any (fun pat => pathMatch rel pat)

/-- Embedding of the filter chain in the enumeration loop of `main`
(lines 232-256), deciding whether a file with relative path segments `rel`
stays a candidate: files with no top segment are dropped when the inclusion
set is non-empty and no glob pattern is configured; files with a top
segment are dropped when the inclusion set is non-empty and does not
contain it, or when the exclusion set contains it; then a configured
pattern list must be matched, and the lower-cased suffix must be a
recognized image extension. -/
def keepFile (only_set exclude_set : List String)
    (match_patterns : List (List String)) (rel : List String) : Bool :=
  let topPass :=
    match top_level_dir_of rel with
    | none => !(!only_set.isEmpty && match_patterns.isEmpty)
    | some top =>
      !(!only_set.isEmpty && !(only_set.contains top)) &&
        !(!exclude_set.isEmpty && exclude_set.contains top)
  topPass &&
    !(!match_patterns.isEmpty && !(matches_any_pattern rel match_patterns)) &&
    IMAGE_EXTS.contains (lowerString (pySuffix (rel.getLastD "")))

/-- Geometry computed by `fit_into_frame`: the output canvas dimensions
(`Image.new` size, which the function returns), the dimensions of the
resized logo and the paste offsets. -/
structure FitResult where
  outW : Nat
  outH : Nat
  logoW : Nat
  logoH : Nat
  pasteX : Int
  pasteY : Int
deriving DecidableEq, Repr

/-- Embedding of `fit_into_frame` (lines 114-132): uniform scale
`min(frameW/lw, frameH/lh)`, capped at 1 when upscaling is disallowed;
resized dimensions truncated to integers (Python `int` on a non-negative
value is the floor) but never below 1; output canvas of exactly the frame
size with the logo pasted at the integer-floor-divided centering offsets
(Python floor division). -/
def fit_into_frame (lw lh frame_w frame_h : Nat) (allow_upscale : Bool) : FitResult :=
  let scale_w : ℚ := (frame_w : ℚ) / (lw : ℚ)
  let scale_h : ℚ := (frame_h : ℚ) / (lh : ℚ)
  let scale0 := min scale_w scale_h
  let scale := if allow_upscale then scale0 else min scale0 1
  let new_w := max 1 (Int.toNat (((lw : ℚ) * scale).floor))
  let new_h := max 1 (Int.toNat (((lh : ℚ) * scale).floor))
  { outW := frame_w, outH := frame_h, logoW := new_w, logoH := new_h,
    pasteX := Int.fdiv ((frame_w : Int) - (new_w : Int)) 2,
    pasteY := Int.fdiv ((frame_h : Int) - (new_h : Int)) 2 }

/-- Outcomes of the external calls made while rasterizing one `.svg` in
`open_image_any`: whether the CairoSVG call raises and whether it leaves
the temporary PNG on disk, whether `Image.open` on that file succeeds, and
the same for the Inkscape path plus whether the tool is on the PATH. -/
structure SvgRun where
  cairoRaises : Bool
  cairoWrote : Bool
  cairoLoadOk : Bool
  inkFound : Bool
  inkRaises : Bool
  inkWrote : Bool
  inkLoadOk : Bool
deriving DecidableEq, Repr

/-- Result of the `.svg` branch of `open_image_any`: whether an image was
returned, and whether the temporary raster file exists after the return. -/
structure SvgResult where
  loaded : Bool
  tmpExists : Bool
deriving DecidableEq, Repr

/-- Inkscape stage of the `.svg` branch (lines 88-104): a missing tool
returns without touching the temporary file; otherwise the rasterizer may
write it, and only a successful `Image.open` inside `_load_tmp` reaches the
unlink — the `except` handler returns without deleting. -/
def inkscapeStage (r : SvgRun) (tmp : Bool) : SvgResult :=
  if !r.inkFound then { loaded := false, tmpExists := tmp }
  else
    let tmp2 := tmp || r.inkWrote
    if !r.inkRaises && r.inkLoadOk then { loaded := true, tmpExists := false }
    else { loaded := false, tmpExists := tmp2 }

/-- Embedding of the `.svg` branch of `open_image_any` (lines 65-104) as a
transformer of the on-disk state `tmp0` of the temporary raster file:
engine `skip` returns immediately; the CairoSVG stage runs for engines
`auto` and `cairosvg`, and only when both the rasterization and the
`Image.open` inside `_load_tmp` succeed does the unlink run (the shared
`except` handler either returns, for the strict engine, or falls through
to the Inkscape stage, in both cases without deleting the file). -/
def openImageAnySvg (svg_engine : String) (r : SvgRun) (tmp0 : Bool) : SvgResult :=
  if svg_engine = "skip" then { loaded := false, tmpExists := tmp0 }
  else
    let cairoTried := svg_engine = "auto" || svg_engine = "cairosvg"
    let tmp1 := if cairoTried then tmp0 || r.cairoWrote else tmp0
    if cairoTried && (!r.cairoRaises && r.cairoLoadOk) then
      { loaded := true, tmpExists := false }
    else if cairoTried && svg_engine = "cairosvg" then
      { loaded := false, tmpExists := tmp1 }
    else if svg_engine = "auto" || svg_engine = "inkscape" then
      inkscapeStage r tmp1
    else
      { loaded := false, tmpExists := tmp1 }

/-- Filesystem write performed by `main` or `process_one`: removal of the
output tree by `--clean`, creation of an output file's parent directory,
the image save attempt, creation of the output root, and the cache save. -/
inductive FsEffect
  | rmtreeOutput
  | mkdirParent (k : String)
  | saveImage (k : String)
  | mkdirOutput
  | saveCacheFile
deriving DecidableEq, Repr

/-- Writes performed by `process_one` (lines 135-146) for one candidate: a
failed open performs none; otherwise the parent directory is created and
the PNG save is attempted (the attempt itself is a write, whether or not
it raises). -/
def processOneEffects (openOk : Bool) (k : String) : List FsEffect :=
  if openOk then [FsEffect.mkdirParent k, FsEffect.saveImage k] else []

/-- Writes performed by the per-file loop of `main` (lines 263-301):
`process_one` runs only for BUILD decisions and only when not in dry-run;
a fully successful build (`openOk` and `saveOk`) also refreshes the cache
entry in memory. -/
def buildLoopEffects (dry_run : Bool) (m : Mode) (active : CfgFingerprint)
    (openOk saveOk : String → Bool) :
    List Candidate → List (String × CacheEntry) → List FsEffect
  | [], _ => []
  | c :: cs, fc =>
    let d := decideOne m active (findEntry fc c.key) c.srcHash c.outExists
    if isBuild d then
      if dry_run then buildLoopEffects dry_run m active openOk saveOk cs fc
      else
        let okFlag := openOk c.key && saveOk c.key
        let fc2 := if okFlag then (c.key, CacheEntry.mk (some c.srcHash) (some active)) :: fc
                   else fc
        processOneEffects (openOk c.key) c.key ++
          buildLoopEffects dry_run m active openOk saveOk cs fc2
    else
      buildLoopEffects dry_run m active openOk saveOk cs fc

/-- Filesystem writes of one whole invocation of `main` (lines 209-212,
263-301, 303-307) in enumeration order: the `--clean` removal of an
existing output directory, the per-file loop, and the final creation of
the output root plus the cache save — each guarded by `not dry_run`
exactly as in the source. -/
def mainEffects (dry_run clean outDirExists : Bool) (m : Mode)
    (active : CfgFingerprint) (openOk saveOk : String → Bool) (cache : Cache)
    (cands : List Candidate) : List FsEffect :=
  (if clean && outDirExists && !dry_run then [FsEffect.rmtreeOutput] else []) ++
    buildLoopEffects dry_run (effectiveMode cache.config active m) active openOk saveOk
      cands cache.files ++
    (if !dry_run then [FsEffect.mkdirOutput, FsEffect.saveCacheFile] else [])

/-- Concrete configuration fingerprint (the source's defaults) used by
witnesses. -/
def cfgA : CfgFingerprint := ⟨512, 250, "sxa_", true, "auto", 2⟩

/-- Concrete fingerprint differing from `cfgA` in the frame width only. -/
def cfgB : CfgFingerprint := ⟨600, 250, "sxa_", true, "auto", 2⟩

/-- Concrete candidate used by witnesses. -/
def cand1 : Candidate := ⟨"France/a.png", "h1", false⟩

/-- Second concrete candidate used by witnesses. -/
def cand2 : Candidate := ⟨"France/b.png", "h2", false⟩

/-- Lookup after inserting a binding for the same key returns that binding. -/
theorem findEntry_cons_self (fc : List (String × CacheEntry)) (k : String)
    (v : CacheEntry) : findEntry ((k, v) :: fc) k = some v := by
  simp [findEntry]

/-- Lookup is unaffected by a binding for a different key. -/
theorem findEntry_cons_ne (fc : List (String × CacheEntry)) (k key : String)
    (v : CacheEntry) (h : k ≠ key) :
    findEntry ((k, v) :: fc) key = findEntry fc key := by
  simp [findEntry, h]

/-- Theorem C8: loading the cache never fails the run — a missing cache
file and a file whose content cannot be read or parsed both make
`load_cache` return the empty cache document, and `load_cache` is a total
function, so no error propagates to the caller. -/
theorem C8_load_cache_tolerant :
    load_cache CacheFileState.missing = emptyCache ∧
    load_cache CacheFileState.unreadable = emptyCache :=
  ⟨rfl, rfl⟩

/-- Theorem C4: if the persisted `_config` differs from the active
fingerprint and the selected mode is not `all`, the effective mode of the
whole run is `changed`; the override happens once, before the per-file
loop, and every candidate of the run is then decided under mode `changed`
(the run's decisions coincide with those of the loop run with mode
`changed`). -/
theorem C4_forced_changed (cache : Cache) (active : CfgFingerprint) (m : Mode)
    (cands : List Candidate)
    (h1 : cache.config ≠ some active) (h2 : m ≠ Mode.all) :
    effectiveMode cache.config active m = Mode.changed ∧
    (runAll m active cache cands).1 = (runFold Mode.changed active cands cache.files).1 := by
  have he : effectiveMode cache.config active m = Mode.changed := by
    simp [effectiveMode, h1, h2]
  exact ⟨he, by simp [runAll, he]⟩

/-- Witness for C4 at a concrete fresh cache, mode `missing` and one
candidate. -/
theorem C4_witness :
    effectiveMode (Cache.mk none []).config cfgA Mode.missing = Mode.changed ∧
    (runAll Mode.missing cfgA (Cache.mk none []) [cand1]).1 =
      (runFold Mode.changed cfgA [cand1] (Cache.mk none []).files).1 :=
  C4_forced_changed (Cache.mk none []) cfgA Mode.missing [cand1] (by decide) (by decide)

/-- Theorem C5: whenever a cached entry's stored config snapshot differs
from the active fingerprint (in at least one field), the decision for that
previously-cached candidate is BUILD under every selected mode, whatever
the persisted `_config` and the output-file state. -/
theorem C5_config_change_forces_build (cacheCfg : Option CfgFingerprint) (m : Mode)
    (active : CfgFingerprint) (e : CacheEntry) (s : String) (out : Bool)
    (h : e.cfg ≠ some active) :
    isBuild (decideOne (effectiveMode cacheCfg active m) active (some e) s out) = true := by
  have hall : ∀ m2 : Mode, isBuild (decideOne m2 active (some e) s out) = true := by
    intro m2
    cases m2 <;> simp [decideOne, isBuild, h]
  exact hall _

/-- Witness for C5: an entry cached under `cfgB` decided against active
config `cfgA` under selected mode `missing` with the output present. -/
theorem C5_witness :
    isBuild (decideOne (effectiveMode (some cfgB) cfgA Mode.missing) cfgA
      (some (CacheEntry.mk (some "h1") (some cfgB))) "h1" true) = true :=
  C5_config_change_forces_build (some cfgB) Mode.missing cfgA
    (CacheEntry.mk (some "h1") (some cfgB)) "h1" true (by decide)

/-- Theorem C7: for positive source and frame dimensions,
`fit_into_frame` returns a canvas of exactly the requested frame size,
regardless of the source aspect ratio. -/
theorem C7_frame_dims_exact (lw lh fw fh : Nat) (u : Bool)
    (h1 : 0 < lw) (h2 : 0 < lh) (h3 : 0 < fw) (h4 : 0 < fh) :
    (fit_into_frame lw lh fw fh u).outW = fw ∧ (fit_into_frame lw lh fw fh u).outH = fh :=
  ⟨rfl, rfl⟩

/-- Witness for C7 at a concrete 30×40 logo fitted into a 512×250 frame. -/
theorem C7_witness :
    (fit_into_frame 30 40 512 250 true).outW = 512 ∧
    (fit_into_frame 30 40 512 250 true).outH = 250 :=
  C7_frame_dims_exact 30 40 512 250 true (by decide) (by decide) (by decide) (by decide)

/-- Theorem C10: against a missing cache file, or a parsed cache document
that lacks the `_config` key, the absent persisted config compares unequal
to every active fingerprint, so any selected mode other than `all` is
forced to `changed`; in particular a whole run selected with mode
`missing` against a fresh cache coincides with the same run selected with
mode `changed`. -/
theorem C10_fresh_cache_forces_changed (active : CfgFingerprint) (m : Mode)
    (doc : Cache) (h1 : m ≠ Mode.all) (h2 : doc.config = none) :
    effectiveMode (load_cache CacheFileState.missing).config active m = Mode.changed ∧
    effectiveMode (load_cache (CacheFileState.parsed doc)).config active m = Mode.changed ∧
    (∀ cands : List Candidate,
      runAll Mode.missing active (load_cache CacheFileState.missing) cands =
        runAll Mode.changed active (load_cache CacheFileState.missing) cands) := by
  refine ⟨?_, ?_, ?_⟩
  · simp [load_cache, emptyCache, effectiveMode, h1]
  · simp [load_cache, effectiveMode, h1, h2]
  · intro cands
    have hm : effectiveMode (none : Option CfgFingerprint) active Mode.missing = Mode.changed := by
      simp [effectiveMode]
    have hc : effectiveMode (none : Option CfgFingerprint) active Mode.changed = Mode.changed := by
      simp [effectiveMode]
    simp [runAll, load_cache, emptyCache, hm, hc]

/-- Witness for C10 at the default fingerprint, selected mode `missing`,
and one concrete candidate list. -/
theorem C10_witness :
    effectiveMode (load_cache CacheFileState.missing).config cfgA Mode.missing = Mode.changed ∧
    runAll Mode.missing cfgA (load_cache CacheFileState.missing) [cand1] =
      runAll Mode.changed cfgA (load_cache CacheFileState.missing) [cand1] :=
  ⟨(C10_fresh_cache_forces_changed cfgA Mode.missing emptyCache (by decide) (by decide)).1,
   (C10_fresh_cache_forces_changed cfgA Mode.missing emptyCache (by decide) (by decide)).2.2 [cand1]⟩

/-- Counterexample to C1 as stated: `France/logo.png` has top category
`France`, a glob pattern `*.png` is configured and matched, the exclusion
set is empty and the extension is allowed, yet under inclusion set
`{Portugal}` the file is excluded — the inclusion-set rule still applies
to files with a top category even when path patterns are configured. -/
theorem C1_counterexample :
    top_level_dir_of ["France", "logo.png"] = some "France" ∧
    matches_any_pattern ["France", "logo.png"] [["*.png"]] = true ∧
    IMAGE_EXTS.contains (lowerString (pySuffix "logo.png")) = true ∧
    keepFile ["Portugal"] [] [["*.png"]] ["France", "logo.png"] = false := by
  decide

/-- Theorem C1 (amended): the configured-pattern exemption from the
top-category inclusion rule applies only to files with no top category; a
file whose top category lies outside a configured non-empty inclusion set
is excluded whatever the pattern, exclusion-set and extension situation. -/
theorem C1_inclusion_applies_despite_patterns (only_set exclude_set : List String)
    (pats : List (List String)) (rel : List String) (t : String)
    (h1 : top_level_dir_of rel = some t) (h2 : only_set ≠ [])
    (h3 : only_set.contains t = false) :
    keepFile only_set exclude_set pats rel = false := by
  cases rel with
  | nil => simp [top_level_dir_of] at h1
  | cons p ps =>
    have hpt : p = t := by simpa [top_level_dir_of] using h1
    subst hpt
    have h2b : only_set.isEmpty = false := by
      cases only_set with
      | nil => exact absurd rfl h2
      | cons a as => rfl
    have h3m : p ∉ only_set := by simpa using h3
    simp [keepFile, top_level_dir_of, h2b, h3m]

/-- Witness for C1's amended theorem at the counterexample's input. -/
theorem C1_witness :
    keepFile ["Portugal"] [] [["*.png"]] ["France", "logo.png"] = false :=
  C1_inclusion_applies_despite_patterns ["Portugal"] [] [["*.png"]]
    ["France", "logo.png"] "France" (by decide) (by decide) (by decide)

/-- Counterexample to C2 as stated: a file directly at the root has one
path segment, and its derived top category is that segment — its own file
name, not `none`; consequently an inclusion set containing the file name
does match it (the file stays a candidate), contradicting both parts of
the claim. -/
theorem C2_counterexample :
    top_level_dir_of ["logo.png"] = some "logo.png" ∧
    ¬ top_level_dir_of ["logo.png"] = none ∧
    keepFile ["logo.png"] [] [] ["logo.png"] = true := by
  decide

/-- Theorem C2 (amended): for a file sitting directly at the root the
derived top category is its own file name (the single path segment), so
the inclusion and exclusion sets match such a file via its file name; in
particular, under a configured non-empty inclusion set with no path
patterns, the file is excluded exactly when its file name is not in the
set. -/
theorem C2_root_file_top_is_filename (name : String) (only_set : List String)
    (h2 : only_set ≠ []) (h3 : only_set.contains name = false) :
    top_level_dir_of [name] = some name ∧ keepFile only_set [] [] [name] = false := by
  refine ⟨rfl, ?_⟩
  have h2b : only_set.isEmpty = false := by
    cases only_set with
    | nil => exact absurd rfl h2
    | cons a as => rfl
  have h3m : name ∉ only_set := by simpa using h3
  simp [keepFile, top_level_dir_of, h2b, h3m]

/-- Witness for C2's amended theorem at a concrete root-level file. -/
theorem C2_witness :
    top_level_dir_of ["logo.png"] = some "logo.png" ∧
    keepFile ["Portugal"] [] [] ["logo.png"] = false :=
  C2_root_file_top_is_filename "logo.png" ["Portugal"] (by decide) (by decide)

/-- Theorem C3 (exhibiting the code bug): two failure paths of the `.svg`
branch of `open_image_any` on which the temporary raster file persists
after the call returns, contradicting the specified scoped-resource rule —
with engine `inkscape`, the tool writes the temporary PNG and then exits
non-zero, and the `except` handler returns `None` without unlinking; with
engine `cairosvg`, the rasterizer writes the file but `Image.open` inside
`_load_tmp` raises before the unlink is reached. -/
theorem C3_tmp_persists_on_failure :
    (openImageAnySvg "inkscape" (SvgRun.mk false false false true true true false)
      false).tmpExists = true ∧
    (openImageAnySvg "cairosvg" (SvgRun.mk false true false false false false false)
      false).tmpExists = true := by
  decide

/-- Theorem C9: a dry-run invocation performs no filesystem writes at all —
no clean-time removal of the output directory, no parent-directory
creation, no image save, no output-root creation and no cache save —
whatever the filters, mode, cache contents, candidates and per-candidate
open/save outcomes. -/
theorem C9_dry_run_no_writes (clean outDirExists : Bool) (m : Mode)
    (active : CfgFingerprint) (openOk saveOk : String → Bool) (cache : Cache)
    (cands : List Candidate) :
    mainEffects true clean outDirExists m active openOk saveOk cache cands = [] := by
  have hb : ∀ (cs : List Candidate) (fc : List (String × CacheEntry)),
      buildLoopEffects true (effectiveMode cache.config active m) active openOk saveOk cs fc
        = [] := by
    intro cs
    induction cs with
    | nil => intro fc; rfl
    | cons c cs ih =>
      intro fc
      by_cases hd : isBuild (decideOne (effectiveMode cache.config active m) active
          (findEntry fc c.key) c.srcHash c.outExists) = true
      · simp [buildLoopEffects, hd, ih]
      · simp [buildLoopEffects, hd, ih]
  simp [mainEffects, hb]

/-- Lemma: the per-file loop only inserts bindings for the keys of its
candidates, so lookups of any other key see the initial `files` map. -/
theorem runFold_preserves (m : Mode) (a : CfgFingerprint) :
    ∀ (cs : List Candidate) (fc : List (String × CacheEntry)) (k : String),
      k ∉ cs.map Candidate.key →
      findEntry (runFold m a cs fc).2.1 k = findEntry fc k := by
  intro cs
  induction cs with
  | nil => intro fc k hk; rfl
  | cons c cs ih =>
    intro fc k hk
    have hk1 : k ≠ c.key := by
      intro he; exact hk (by simp [he])
    have hk2 : k ∉ cs.map Candidate.key := by
      intro he; exact hk (by simp [he])
    by_cases hb : isBuild (decideOne m a (findEntry fc c.key) c.srcHash c.outExists) = true
    · simp only [runFold, hb, if_true]
      rw [ih _ k hk2, findEntry_cons_ne _ _ _ _ (fun he => hk1 he.symm)]
    · simp only [runFold, hb, if_false]
      exact ih _ k hk2

/-- Lemma: after a run of the per-file loop in which every decision was
BUILD and the candidate keys were pairwise distinct, the final `files` map
stores, for every updated candidate, the fresh entry holding its current
hash and the active fingerprint. -/
theorem runFold_entry_fresh (m : Mode) (a : CfgFingerprint) :
    ∀ (cs : List Candidate) (fc : List (String × CacheEntry)),
      (cs.map Candidate.key).Nodup →
      ((runFold m a cs fc).1).all isBuild = true →
      ∀ c2 ∈ (runFold m a cs fc).2.2,
        findEntry (runFold m a cs fc).2.1 c2.key =
          some (CacheEntry.mk (some c2.srcHash) (some a)) := by
  intro cs
  induction cs with
  | nil => intro fc hnd hall c2 hc2; simp [runFold] at hc2
  | cons c cs ih =>
    intro fc hnd hall
    have hndc : (c.key :: cs.map Candidate.key).Nodup := by simpa using hnd
    have hnd1 : c.key ∉ cs.map Candidate.key := (List.nodup_cons.mp hndc).1
    have hnd2 : (cs.map Candidate.key).Nodup := (List.nodup_cons.mp hndc).2
    have hb : isBuild (decideOne m a (findEntry fc c.key) c.srcHash c.outExists) = true := by
      have := hall
      simp only [runFold, List.all_cons, Bool.and_eq_true] at this
      exact this.1
    have hall2 : ((runFold m a cs
        ((c.key, CacheEntry.mk (some c.srcHash) (some a)) :: fc)).1).all isBuild = true := by
      have := hall
      simp only [runFold, hb, if_true, List.all_cons, Bool.and_eq_true] at this
      exact this.2
    intro c2 hc2
    simp only [runFold, hb, if_true] at hc2 ⊢
    rcases List.mem_cons.mp hc2 with he | hm
    · subst he
      rw [runFold_preserves m a cs _ c.key hnd1]
      exact findEntry_cons_self _ _ _
    · exact ih _ hnd2 hall2 c2 hm

/-- Lemma: under mode `changed`, a candidate whose cache entry stores its
current hash and the active fingerprint is decided SKIP, whatever the
output-file state. -/
theorem decideOne_fresh_skip (a : CfgFingerprint) (h : String) (out : Bool) :
    decideOne Mode.changed a (some (CacheEntry.mk (some h) (some a))) h out
      = Decision.skip := by
  simp [decideOne]

/-- Lemma: under mode `changed`, if every candidate's entry in the initial
`files` map is the fresh one (current hash, active fingerprint), the loop
decides SKIP for all of them. -/
theorem runFold_all_skip (a : CfgFingerprint) :
    ∀ (cs : List Candidate) (fc : List (String × CacheEntry)),
      (∀ c ∈ cs, findEntry fc c.key = some (CacheEntry.mk (some c.srcHash) (some a))) →
      ((runFold Mode.changed a cs fc).1).all isSkip = true := by
  intro cs
  induction cs with
  | nil => intro fc hf; rfl
  | cons c cs ih =>
    intro fc hf
    have hd : decideOne Mode.changed a (findEntry fc c.key) c.srcHash c.outExists
        = Decision.skip := by
      rw [hf c (List.mem_cons_self c cs)]
      exact decideOne_fresh_skip a c.srcHash c.outExists
    have hb : isBuild (decideOne Mode.changed a (findEntry fc c.key) c.srcHash c.outExists)
        = false := by rw [hd]; rfl
    simp only [runFold, hd, hb, if_false, List.all_cons, Bool.and_eq_true]
    exact ⟨rfl, ih fc (fun c2 hc2 => hf c2 (List.mem_cons_of_mem c hc2))⟩

/-- Theorem C6: after a non-dry-run invocation with pairwise-distinct
candidate keys in which every candidate was decided BUILD (and, per the
run model, built successfully and the cache saved), a second run over the
same candidates with mode `changed`, the same active fingerprint and
unchanged source bytes decides SKIP for every candidate — zero BUILD
decisions. -/
theorem C6_second_run_all_skip (m : Mode) (active : CfgFingerprint) (cache : Cache)
    (cands : List Candidate)
    (hnd : (cands.map Candidate.key).Nodup)
    (hall : ((runAll m active cache cands).1).all isBuild = true) :
    ((runAll Mode.changed active (runAll m active cache cands).2.1
        (runAll m active cache cands).2.2).1).all isSkip = true := by
  have hall2 : ((runFold (effectiveMode cache.config active m) active cands
      cache.files).1).all isBuild = true := by
    simpa [runAll] using hall
  have hfresh := runFold_entry_fresh (effectiveMode cache.config active m) active cands
    cache.files hnd hall2
  have hem : effectiveMode (some active) active Mode.changed = Mode.changed := by
    simp [effectiveMode]
  simp only [runAll, hem]
  exact runFold_all_skip active _ _ hfresh

/-- Witness for C6: a first run in mode `all` over two fresh candidates,
then a second run in mode `changed` over the run's results. -/
theorem C6_witness :
    ((runAll Mode.changed cfgA (runAll Mode.all cfgA emptyCache [cand1, cand2]).2.1
        (runAll Mode.all cfgA emptyCache [cand1, cand2]).2.2).1).all isSkip = true :=
  C6_second_run_all_skip Mode.all cfgA emptyCache [cand1, cand2] (by decide) (by decide)

end BuildPicons
